import Mathlib

/-!
Shallow embedding of the flood-risk assessment core (repository `flood`):
the risk engine (`calculateFloodRisk`), the rainfall aggregation
(`getRainfallData`), the elevation resolver with its TTL cache
(`getElevationData`, `getCachedElevation`, `cacheElevation`,
`getSimulatedElevation`), the USGS provider call (`getUSGSElevation`) and
the safer-city grid search (`searchForSaferCity`).

Numbers are embedded as exact rationals (`ℚ`); timestamps and durations in
milliseconds as integers (`ℤ`).  External effects (provider calls, the
random generator, the clock) are passed in explicitly: a provider call
becomes a value describing its outcome, `Math.random()` becomes a rational
parameter `rand`, `Date.now()` an integer parameter `now`.
-/

namespace Flood

/-! ## Risk engine (source: `calculateFloodRisk`) -/

/-- Result of `calculateFloodRisk`: a risk level string and a numeric score. -/
structure RiskResult where
  level : String
  score : ℚ
deriving DecidableEq, Repr

/-- Elevation factor of `calculateFloodRisk` (the `riskFactors.elevation`
branch ladder of the source, values `k*20/3`). -/
def elevationFactor (elevation : ℚ) : ℚ :=
  if elevation < 3 then 15 * 20 / 3
  else if elevation < 10 then 10 * 20 / 3
  else if elevation < 20 then 8 * 20 / 3
  else if elevation < 50 then 4 * 20 / 3
  else if elevation < 100 then 2 * 20 / 3
  else if elevation < 200 then 1 * 20 / 3
  else 0

/-- Rainfall factor of `calculateFloodRisk` (the `riskFactors.rainfall`
branch ladder of the source). -/
def rainfallFactor (rainfall : ℚ) : ℚ :=
  if rainfall > 200 then 15 * 20 / 3
  else if rainfall > 100 then 10 * 20 / 3
  else if rainfall > 50 then 8 * 20 / 3
  else if rainfall > 25 then 4 * 20 / 3
  else if rainfall > 10 then 2 * 20 / 3
  else 0

/-- The weighted total of `calculateFloodRisk`: `value * weights[factor]`
summed over the two factors (weights 0.40 and 0.60), then doubled when the
awaited `isNearWater(lat, lng)` result is true. -/
def totalRiskScore (elevation rainfall : ℚ) (nearWater : Bool) : ℚ :=
  let weighted := elevationFactor elevation * 0.40 + rainfallFactor rainfall * 0.60
  if nearWater then weighted * 2 else weighted

/-- The level ladder at the end of `calculateFloodRisk`: thresholds
`10*20/3`, `8*20/3`, `6*20/3`. -/
def riskLevelOf (totalScore : ℚ) : String :=
  if totalScore ≥ 10 * 20 / 3 then "very-high"
  else if totalScore ≥ 8 * 20 / 3 then "high"
  else if totalScore ≥ 6 * 20 / 3 then "medium"
  else "low"

/-- `calculateFloodRisk(elevation, rainfall, lat, lng)` from the source,
with the awaited `isNearWater(lat, lng)` result passed in as the boolean
`nearWater`: returns `{level, score}`. -/
def calculateFloodRisk (elevation rainfall : ℚ) (nearWater : Bool) : RiskResult :=
  ⟨riskLevelOf (totalRiskScore elevation rainfall nearWater),
    totalRiskScore elevation rainfall nearWater⟩

/-- Ambient state a source function could observe: the next `Math.random()`
value and the current `Date.now()` clock reading. -/
structure World where
  rand : ℚ
  nowMs : ℤ
deriving DecidableEq, Repr

/-- `calculateFloodRisk` run in an ambient `World`.  The source of
`calculateFloodRisk` contains no `Math.random()` or `Date.now()` call
(randomness lives only in the simulated-data fallbacks), so the embedding
does not consult the world. -/
def calculateFloodRiskInWorld (_w : World) (elevation rainfall : ℚ)
    (nearWater : Bool) : RiskResult :=
  calculateFloodRisk elevation rainfall nearWater

/-! Spec-side definitions, written from the specification's words, to be
compared with the source embedding above. -/

/-- From the spec: elevation bucketed `<3→100, <10→66.7, <20→53.3,
<50→26.7, <100→13.3, <200→6.7, ≥200→0`, each value `k*20/3`. -/
def specElevationScore (e : ℚ) : ℚ :=
  if e < 3 then 100
  else if e < 10 then 200 / 3
  else if e < 20 then 160 / 3
  else if e < 50 then 80 / 3
  else if e < 100 then 40 / 3
  else if e < 200 then 20 / 3
  else 0

/-- From the spec: rainfall bucketed `>200→100, >100→66.7, >50→53.3,
>25→26.7, >10→13.3, ≤10→0`. -/
def specRainfallScore (r : ℚ) : ℚ :=
  if r > 200 then 100
  else if r > 100 then 200 / 3
  else if r > 50 then 160 / 3
  else if r > 25 then 80 / 3
  else if r > 10 then 40 / 3
  else 0

/-- From the spec: weighted sum `0.40 * elevationScore + 0.60 *
rainfallScore`, doubled when near water. -/
def specTotalScore (e r : ℚ) (nearWater : Bool) : ℚ :=
  let s := 0.40 * specElevationScore e + 0.60 * specRainfallScore r
  if nearWater then 2 * s else s

/-- From the spec: classify `≥66.7→very-high, ≥53.3→high, ≥40→medium,
else low` (thresholds `k*20/3`, `k∈{10,8,6}`). -/
def specLevel (s : ℚ) : String :=
  if s ≥ 200 / 3 then "very-high"
  else if s ≥ 160 / 3 then "high"
  else if s ≥ 40 then "medium"
  else "low"

/-! ## Rainfall aggregation (source: `getRainfallData`) -/

/-- `true` when the character list `pat` occurs at the front of `l`. -/
def leadsWith : List Char → List Char → Bool
  | [], _ => true
  | _ :: _, [] => false
  | a :: as, b :: bs => a == b && leadsWith as bs

/-- `true` when the character list `pat` occurs somewhere in `l`
(JavaScript `String.prototype.includes`). -/
def occursIn (pat : List Char) : List Char → Bool
  | [] => pat.isEmpty
  | b :: bs => leadsWith pat (b :: bs) || occursIn pat bs

/-- `hay.includes(needle)` on strings. -/
def strIncludes (hay needle : String) : Bool :=
  occursIn needle.data hay.data

/-- `String.prototype.toLowerCase`, character-wise. -/
def toLowerStr (s : String) : String :=
  ⟨s.data.map Char.toLower⟩

/-- The precipitation-keyword test of `getRainfallData` over the
lower-cased period description. -/
def hasPrecipitation (t : String) : Bool :=
  strIncludes t "rain" || strIncludes t "shower" || strIncludes t "storm" ||
    strIncludes t "thunderstorm" || strIncludes t "precipitation" ||
    strIncludes t "drizzle" || strIncludes t "sprinkle"

/-- Per-period rainfall estimate of `getRainfallData`: 15 mm for a
heavy/severe description, 8 mm for moderate/steady, 3 mm for any other
precipitation description, 0 mm without precipitation keywords. -/
def periodRainfall (detailedForecast : String) : ℚ :=
  let forecastText := toLowerStr detailedForecast
  if hasPrecipitation forecastText then
    if strIncludes forecastText "heavy" || strIncludes forecastText "severe" then 15
    else if strIncludes forecastText "moderate" || strIncludes forecastText "steady" then 8
    else 3
  else 0

/-- `Math.round(x * 10) / 10` — rounding to one decimal. -/
def roundTenth (q : ℚ) : ℚ :=
  ((round (q * 10) : ℤ) : ℚ) / 10

/-- `getRainfallData` on the forecast-success path, given the period
descriptions of the fetched forecast: sums the per-period estimates over
the first `min(periods.length, 4)` periods, multiplies the total by 100
(`totalRainfall *= 100`), and rounds to one decimal. -/
def getRainfallData (periods : List String) : ℚ :=
  let totalRainfall := ((periods.take 4).map periodRainfall).sum * 100
  roundTenth totalRainfall

/-- Modelled from the spec's words: the unscaled rainfall figure — the sum
of the per-period millimeter estimates over the first 4 periods, with no
×100 scaling. -/
def specRainfallSum (periods : List String) : ℚ :=
  ((periods.take 4).map periodRainfall).sum

/-! ## Elevation resolver (source: `getElevationData`, `cacheElevation`,
`getCachedElevation`, `getSimulatedElevation`, `getUSGSElevation`) -/

/-- An elevation reading: `{elevation, source, accuracy}` with `elevation`
possibly null. -/
structure ElevationReading where
  elevation : Option ℤ
  source : String
  accuracy : String
deriving DecidableEq, Repr

/-- One cache slot: `{data, timestamp, expiry}` as stored by
`cacheElevation`. -/
structure CacheEntry where
  data : ElevationReading
  timestamp : ℤ
  expiry : ℤ
deriving DecidableEq, Repr

/-- The elevation cache, a map from rounded-coordinate keys to entries,
modelled as an association list with `Map.set` replace-on-insert
semantics. -/
abbrev ElevationCache := List ((ℤ × ℤ) × CacheEntry)

/-- The cache key `lat.toFixed(4) + "," + lng.toFixed(4)`, modelled as the
pair of coordinates rounded to 4 decimal places. -/
def cacheKey (lat lng : ℚ) : ℤ × ℤ :=
  (round (lat * 10000), round (lng * 10000))

/-- `Map.get` on the cache. -/
def cacheFind : ElevationCache → ℤ × ℤ → Option CacheEntry
  | [], _ => none
  | (k', e) :: rest, k => if k' = k then some e else cacheFind rest k

/-- `Map.delete` on the cache. -/
def cacheErase (c : ElevationCache) (k : ℤ × ℤ) : ElevationCache :=
  c.filter (fun p => p.1 ≠ k)

/-- `Map.set` on the cache. -/
def cacheSet (c : ElevationCache) (k : ℤ × ℤ) (e : CacheEntry) : ElevationCache :=
  (k, e) :: cacheErase c k

/-- `cacheElevation(key, data)`: stores the reading with the current time
and the configured duration (`CONFIG.ELEVATION.CACHE_DURATION`, default
3600000 ms). -/
def cacheElevation (c : ElevationCache) (k : ℤ × ℤ) (data : ElevationReading)
    (now cacheDuration : ℤ) : ElevationCache :=
  cacheSet c k ⟨data, now, cacheDuration⟩

/-- `getCachedElevation(key)`: returns the cached reading unless
`Date.now() - cached.timestamp > cached.expiry`, in which case the entry
is deleted and `null` returned.  The (possibly pruned) cache is returned
alongside. -/
def getCachedElevation (c : ElevationCache) (now : ℤ) (k : ℤ × ℤ) :
    Option ElevationReading × ElevationCache :=
  match cacheFind c k with
  | none => (none, c)
  | some cached =>
    if now - cached.timestamp > cached.expiry then (none, cacheErase c k)
    else (some cached.data, c)

/-- Outcome of one provider closure in the `elevationSources` array:
either it throws, or it returns a reading. -/
inductive ProviderResult where
  | err
  | ok (r : ElevationReading)
deriving DecidableEq, Repr

/-- The acceptance test of the provider loop:
`result && result.elevation !== null`. -/
def providerSucceeds : ProviderResult → Bool
  | .err => false
  | .ok r => r.elevation.isSome

/-- The `for (const source of elevationSources)` loop: returns the first
accepted reading together with the number of provider calls made. -/
def scanProviders : List ProviderResult → Option ElevationReading × ℕ
  | [] => (none, 0)
  | .err :: rest => ((scanProviders rest).1, (scanProviders rest).2 + 1)
  | .ok r :: rest =>
    if r.elevation.isSome then (some r, 1)
    else ((scanProviders rest).1, (scanProviders rest).2 + 1)

/-- `getSimulatedElevation(lat, lng)`: regional base elevation, bounded
random jitter (`rand` stands for the `Math.random()` draw), clamped at
zero after rounding. -/
def getSimulatedElevation (lat lng : ℚ) (rand : ℚ) : ℤ :=
  let base : ℚ := 100
  let base := base + (if lat > 40 ∧ lng < -100 then 1500 else 0)
  let base := base + (if lat > 35 ∧ lat < 45 ∧ lng > -85 ∧ lng < -75 then 800 else 0)
  let base := base + (if lat > 30 ∧ lat < 40 ∧ lng > -120 ∧ lng < -110 then 1200 else 0)
  let base := base - (if |lng| > 75 ∧ lat < 35 then 50 else 0)
  let base := base - (if lng < -120 ∧ lat < 40 then 30 else 0)
  let base := base + (rand - 0.5) * 200
  max 0 (round base)

/-- `getElevationData(lat, lng)`: check the cache under the rounded key;
otherwise run the provider chain and cache the first accepted reading;
if every provider fails, cache and return a simulated reading tagged
`source='simulated', accuracy='low'`.  Returns the reading, the updated
cache, and the number of provider calls made.  The function is total: no
error propagates to the caller on the all-providers-fail path. -/
def getElevationData (c : ElevationCache) (now : ℤ) (lat lng : ℚ)
    (providers : List ProviderResult) (cacheDuration : ℤ) (rand : ℚ) :
    ElevationReading × ElevationCache × ℕ :=
  let k := cacheKey lat lng
  match getCachedElevation c now k with
  | (some cached, c') => (cached, c', 0)
  | (none, c') =>
    match scanProviders providers with
    | (some r, n) => (r, cacheElevation c' k r now cacheDuration, n)
    | (none, n) =>
      let simulatedResult : ElevationReading :=
        ⟨some (getSimulatedElevation lat lng rand), "simulated", "low"⟩
      (simulatedResult, cacheElevation c' k simulatedResult now cacheDuration, n)

/-- The `CONFIG.ELEVATION` settings object of `config.js`. -/
structure ElevationConfig where
  cacheDuration : ℤ
  apiTimeout : ℕ
  maxRetries : ℕ
  enableUSGS : Bool
  enableOpenElevation : Bool
  enableGoogle : Bool
  enableMapbox : Bool
deriving DecidableEq, Repr

/-- The literal `CONFIG.ELEVATION` values of `config.js`. -/
def CONFIG_ELEVATION : ElevationConfig :=
  ⟨3600000, 10000, 2, true, true, false, false⟩

/-- Outcome of one `fetch` of the USGS endpoint: a thrown network error,
or an HTTP-ok JSON body with or without a `results` entry carrying an
elevation value. -/
inductive FetchOutcome where
  | networkErr
  | httpErr
  | okBody (hasResults : Bool) (value : ℤ)
deriving DecidableEq, Repr

/-- `getUSGSElevation(lat, lng)`: issues exactly one `fetch` — attempt 0
of the supplied outcome stream — with no timeout and no retry loop
(`CONFIG.ELEVATION.API_TIMEOUT` and `CONFIG.ELEVATION.MAX_RETRIES` are
never read), and maps the outcome to a reading or a thrown error.
Returns the result together with the number of fetch attempts made. -/
def getUSGSElevation (_cfg : ElevationConfig) (attempts : ℕ → FetchOutcome) :
    Except String ElevationReading × ℕ :=
  match attempts 0 with
  | .networkErr => (.error "USGS API request failed", 1)
  | .httpErr => (.error "USGS API request failed", 1)
  | .okBody false _ => (.error "No elevation data from USGS", 1)
  | .okBody true v => (.ok ⟨some v, "USGS", "high"⟩, 1)

/-! ## Safer-city search (source: `searchForSaferCity`, `getCityName`) -/

/-- Consume one number of the coordinate-name pattern
(`-?\d+\.?\d*`): optional minus, one or more digits, optional dot,
further digits.  Returns the remaining characters, or `none` when no
digit is found. -/
def chompNumber (cs : List Char) : Option (List Char) :=
  let cs₁ := match cs with
    | '-' :: rest => rest
    | _ => cs
  if (cs₁.takeWhile Char.isDigit).isEmpty then none
  else
    let rest := cs₁.dropWhile Char.isDigit
    let rest₂ := match rest with
      | '.' :: r => r
      | _ => rest
    some (rest₂.dropWhile Char.isDigit)

/-- The coordinate-name test
`/^-?\d+\.?\d*,\s*-?\d+\.?\d*$/.test(cityName)` of `searchForSaferCity`:
a name that degenerates to a raw "lat, lng" string. -/
def isCoordinateName (s : String) : Bool :=
  match chompNumber s.data with
  | none => false
  | some rest =>
    match rest with
    | ',' :: rest₂ =>
      match chompNumber (rest₂.dropWhile Char.isWhitespace) with
      | some [] => true
      | _ => false
    | _ => false

/-- The fixed direction order of the `directions` array. -/
def searchDirections : List String :=
  ["North", "South", "East", "West", "Northeast", "Northwest", "Southeast", "Southwest"]

/-- The distance rings of the outer loop: 20 to 160 miles in steps
of 20. -/
def searchDistances : List ℕ :=
  [20, 40, 60, 80, 100, 120, 140, 160]

/-- The full probe grid in traversal order: ring-major, direction-minor. -/
def probeList : List (ℕ × String) :=
  searchDistances.flatMap (fun d => searchDirections.map (fun dir => (d, dir)))

/-- What one probe of the search observes: either some provider call in
the probe's `try` block throws, or the probe is assessed to a risk level
and (when the level qualifies) a reverse-geocoded city name. -/
inductive ProbeOutcome where
  | fail
  | assessed (level : String) (city : String)
deriving DecidableEq, Repr

/-- The value handed to `displaySaferCity` on acceptance. -/
structure SaferCityResult where
  city : String
  distance : ℕ
  direction : String
  level : String
deriving DecidableEq, Repr

/-- The per-probe acceptance decision of the loop body: an errored probe
is skipped (`continue` in `catch`); a probe is accepted when its level is
`low` or `medium` and its city name is not a raw coordinate string; a
coordinate-named probe is skipped (`continue`). -/
def probeAccept : ProbeOutcome → Option (String × String)
  | .fail => none
  | .assessed lvl city =>
    if lvl = "low" ∨ lvl = "medium" then
      if isCoordinateName city then none else some (lvl, city)
    else none

/-- The nested loops of `searchForSaferCity` over a probe sequence:
returns at the first accepted probe, and counts the probes evaluated. -/
def searchGo (oracle : ℕ → String → ProbeOutcome) :
    List (ℕ × String) → Option SaferCityResult × ℕ
  | [] => (none, 0)
  | (d, dir) :: rest =>
    match probeAccept (oracle d dir) with
    | some (lvl, city) => (some ⟨city, d, dir, lvl⟩, 1)
    | none => ((searchGo oracle rest).1, (searchGo oracle rest).2 + 1)

/-- `searchForSaferCity()`: traverse the 8-ring × 8-direction grid in
order and stop at the first accepted probe; with no acceptance the search
reports absence (`showNoSafeAlternatives`), here `none`. -/
def searchForSaferCity (oracle : ℕ → String → ProbeOutcome) :
    Option SaferCityResult × ℕ :=
  searchGo oracle probeList

end Flood

namespace Flood

/-! ## Theorems about the risk engine -/

/-- The source's elevation branch ladder computes exactly the spec's
elevation buckets. -/
theorem elevationFactor_eq_spec (e : ℚ) : elevationFactor e = specElevationScore e := by
  unfold elevationFactor specElevationScore
  split_ifs <;> norm_num

/-- The source's rainfall branch ladder computes exactly the spec's
rainfall buckets. -/
theorem rainfallFactor_eq_spec (r : ℚ) : rainfallFactor r = specRainfallScore r := by
  unfold rainfallFactor specRainfallScore
  split_ifs <;> norm_num

/-- `totalRiskScore` with `nearWater = false` is the plain weighted sum. -/
theorem totalRiskScore_false (e r : ℚ) :
    totalRiskScore e r false = elevationFactor e * 0.40 + rainfallFactor r * 0.60 := rfl

/-- `totalRiskScore` with `nearWater = true` is the doubled weighted sum. -/
theorem totalRiskScore_true (e r : ℚ) :
    totalRiskScore e r true = (elevationFactor e * 0.40 + rainfallFactor r * 0.60) * 2 := rfl

/-- `specTotalScore` with `nearWater = false`, reduced. -/
theorem specTotalScore_false (e r : ℚ) :
    specTotalScore e r false = 0.40 * specElevationScore e + 0.60 * specRainfallScore r := rfl

/-- `specTotalScore` with `nearWater = true`, reduced. -/
theorem specTotalScore_true (e r : ℚ) :
    specTotalScore e r true = 2 * (0.40 * specElevationScore e + 0.60 * specRainfallScore r) := rfl

/-- The source's total score equals the spec's total score. -/
theorem totalRiskScore_eq_spec (e r : ℚ) (w : Bool) :
    totalRiskScore e r w = specTotalScore e r w := by
  have he := elevationFactor_eq_spec e
  have hr := rainfallFactor_eq_spec r
  cases w
  · rw [totalRiskScore_false, specTotalScore_false, he, hr]; ring
  · rw [totalRiskScore_true, specTotalScore_true, he, hr]; ring

/-- The source's level ladder computes exactly the spec's classification. -/
theorem riskLevelOf_eq_spec (s : ℚ) : riskLevelOf s = specLevel s := by
  unfold riskLevelOf specLevel
  split_ifs <;> first | rfl | linarith

/-- C1: for every elevation, rainfall and near-water flag, the
source's `calculateFloodRisk` computes exactly the spec's bucketed
elevation score, bucketed rainfall score, weighted (and near-water
doubled) total, and level classification. -/
theorem calculateFloodRisk_refines_spec (e r : ℚ) (w : Bool) :
    (calculateFloodRisk e r w).score = specTotalScore e r w ∧
      (calculateFloodRisk e r w).level = specLevel (specTotalScore e r w) := by
  constructor
  · show totalRiskScore e r w = specTotalScore e r w
    exact totalRiskScore_eq_spec e r w
  · show riskLevelOf (totalRiskScore e r w) = specLevel (specTotalScore e r w)
    rw [totalRiskScore_eq_spec, riskLevelOf_eq_spec]

/-- Looking a key up right after setting it yields the set entry. -/
theorem cacheFind_cacheSet (c : ElevationCache) (k : ℤ × ℤ) (e : CacheEntry) :
    cacheFind (cacheSet c k e) k = some e := by
  simp [cacheSet, cacheFind]

/-- When every provider fails the scan visits the whole chain and accepts
nothing. -/
theorem scanProviders_all_fail (ps : List ProviderResult)
    (h : ∀ p ∈ ps, providerSucceeds p = false) :
    scanProviders ps = (none, ps.length) := by
  induction ps with
  | nil => rfl
  | cons p rest ih =>
    have hp := h p (List.mem_cons_self p rest)
    have hrest := ih (fun q hq => h q (List.mem_cons_of_mem p hq))
    cases p with
    | err => simp [scanProviders, hrest]
    | ok r =>
      have : r.elevation.isSome = false := hp
      simp [scanProviders, this, hrest]

/-- The scan stops at the first provider returning a non-null elevation,
whatever comes after it in the chain. -/
theorem scanProviders_first_success (pre post : List ProviderResult) (r : ElevationReading)
    (hpre : ∀ p ∈ pre, providerSucceeds p = false) (hr : r.elevation.isSome = true) :
    scanProviders (pre ++ ProviderResult.ok r :: post) = (some r, pre.length + 1) := by
  induction pre with
  | nil => simp [scanProviders, hr]
  | cons p rest ih =>
    have hp := hpre p (List.mem_cons_self p rest)
    have hrest := ih (fun q hq => hpre q (List.mem_cons_of_mem p hq))
    cases p with
    | err =>
      simp [scanProviders, hrest]
    | ok r' =>
      have : r'.elevation.isSome = false := hp
      simp [scanProviders, this, hrest]

/-- C4: whenever the cache misses and every provider call in the chain
fails or yields no usable elevation, `getElevationData` returns a reading
tagged `source='simulated', accuracy='low'` with a non-negative elevation
value, and stores that reading in the cache; the function is total, so no
error propagates to the caller. -/
theorem getElevationData_all_providers_fail
    (c : ElevationCache) (now : ℤ) (lat lng : ℚ) (providers : List ProviderResult)
    (dur : ℤ) (rand : ℚ)
    (hmiss : (getCachedElevation c now (cacheKey lat lng)).1 = none)
    (hfail : ∀ p ∈ providers, providerSucceeds p = false) :
    (getElevationData c now lat lng providers dur rand).1.source = "simulated" ∧
      (getElevationData c now lat lng providers dur rand).1.accuracy = "low" ∧
      (∃ v : ℤ, (getElevationData c now lat lng providers dur rand).1.elevation = some v ∧ 0 ≤ v) ∧
      cacheFind (getElevationData c now lat lng providers dur rand).2.1 (cacheKey lat lng)
        = some ⟨(getElevationData c now lat lng providers dur rand).1, now, dur⟩ := by
  have hpair : getCachedElevation c now (cacheKey lat lng)
      = (none, (getCachedElevation c now (cacheKey lat lng)).2) := by
    rw [← hmiss]
  have hmain : getElevationData c now lat lng providers dur rand
      = (⟨some (getSimulatedElevation lat lng rand), "simulated", "low"⟩,
         cacheElevation (getCachedElevation c now (cacheKey lat lng)).2 (cacheKey lat lng)
           ⟨some (getSimulatedElevation lat lng rand), "simulated", "low"⟩ now dur,
         providers.length) := by
    simp only [getElevationData]
    rw [hpair, scanProviders_all_fail providers hfail]
  rw [hmain]
  refine ⟨rfl, rfl, ⟨getSimulatedElevation lat lng rand, rfl, le_max_left 0 _⟩, ?_⟩
  exact cacheFind_cacheSet _ _ _

/-- C4 witness: a concrete resolution in which both providers fail. -/
theorem getElevationData_all_providers_fail_witness :
    (getElevationData [] 0 0 0 [ProviderResult.err,
        ProviderResult.ok ⟨none, "OpenElevation", "medium"⟩] 3600000 (1/2)).1.source
        = "simulated" ∧
      (getElevationData [] 0 0 0 [ProviderResult.err,
        ProviderResult.ok ⟨none, "OpenElevation", "medium"⟩] 3600000 (1/2)).1.accuracy = "low" ∧
      (∃ v : ℤ, (getElevationData [] 0 0 0 [ProviderResult.err,
        ProviderResult.ok ⟨none, "OpenElevation", "medium"⟩] 3600000 (1/2)).1.elevation = some v ∧
        0 ≤ v) ∧
      cacheFind (getElevationData [] 0 0 0 [ProviderResult.err,
          ProviderResult.ok ⟨none, "OpenElevation", "medium"⟩] 3600000 (1/2)).2.1 (cacheKey 0 0)
        = some ⟨(getElevationData [] 0 0 0 [ProviderResult.err,
            ProviderResult.ok ⟨none, "OpenElevation", "medium"⟩] 3600000 (1/2)).1, 0, 3600000⟩ :=
  getElevationData_all_providers_fail [] 0 0 0
    [ProviderResult.err, ProviderResult.ok ⟨none, "OpenElevation", "medium"⟩] 3600000 (1/2)
    rfl (by decide)

/-- C5: on a cache miss, when every provider before some provider fails
and that provider returns a reading with a non-null elevation value,
`getElevationData` returns exactly that reading (hence its `source` tag),
caches it, and performs `pre.length + 1` provider calls — for every
possible tail of later providers, so none of them is invoked. -/
theorem getElevationData_first_success
    (c : ElevationCache) (now : ℤ) (lat lng : ℚ) (pre post : List ProviderResult)
    (r : ElevationReading) (dur : ℤ) (rand : ℚ)
    (hmiss : (getCachedElevation c now (cacheKey lat lng)).1 = none)
    (hpre : ∀ p ∈ pre, providerSucceeds p = false)
    (hr : r.elevation.isSome = true) :
    getElevationData c now lat lng (pre ++ ProviderResult.ok r :: post) dur rand
      = (r, cacheElevation (getCachedElevation c now (cacheKey lat lng)).2 (cacheKey lat lng)
            r now dur,
         pre.length + 1) := by
  have hpair : getCachedElevation c now (cacheKey lat lng)
      = (none, (getCachedElevation c now (cacheKey lat lng)).2) := by
    rw [← hmiss]
  simp only [getElevationData]
  rw [hpair, scanProviders_first_success pre post r hpre hr]

/-- C5 witness: first provider throws, second succeeds; a third provider
is present but never invoked. -/
theorem getElevationData_first_success_witness :
    getElevationData [] 0 0 0 [ProviderResult.err,
        ProviderResult.ok ⟨some 12, "OpenElevation", "medium"⟩,
        ProviderResult.ok ⟨some 99, "Google", "high"⟩] 3600000 0
      = (⟨some 12, "OpenElevation", "medium"⟩,
         cacheElevation (getCachedElevation [] 0 (cacheKey 0 0)).2 (cacheKey 0 0)
           ⟨some 12, "OpenElevation", "medium"⟩ 0 3600000,
         2) :=
  getElevationData_first_success [] 0 0 0 [ProviderResult.err]
    [ProviderResult.ok ⟨some 99, "Google", "high"⟩]
    ⟨some 12, "OpenElevation", "medium"⟩ 3600000 0 rfl (by decide) rfl

/-- On a cache hit the resolver returns the cached reading with the
(unchanged) cache and zero provider calls. -/
theorem getElevationData_hit (c : ElevationCache) (now : ℤ) (lat lng : ℚ)
    (ps : List ProviderResult) (dur : ℤ) (rand : ℚ) (r : ElevationReading) (c₂ : ElevationCache)
    (hhit : getCachedElevation c now (cacheKey lat lng) = (some r, c₂)) :
    getElevationData c now lat lng ps dur rand = (r, c₂, 0) := by
  simp only [getElevationData]
  rw [hhit]

/-- On a cache miss the resolver stores the returned reading under the
rounded key, stamped with the current time and the configured duration. -/
theorem getElevationData_miss_cache (c : ElevationCache) (now : ℤ) (lat lng : ℚ)
    (ps : List ProviderResult) (dur : ℤ) (rand : ℚ)
    (hmiss : (getCachedElevation c now (cacheKey lat lng)).1 = none) :
    (getElevationData c now lat lng ps dur rand).2.1
      = cacheSet (getCachedElevation c now (cacheKey lat lng)).2 (cacheKey lat lng)
          ⟨(getElevationData c now lat lng ps dur rand).1, now, dur⟩ := by
  have hpair : getCachedElevation c now (cacheKey lat lng)
      = (none, (getCachedElevation c now (cacheKey lat lng)).2) := by
    rw [← hmiss]
  simp only [getElevationData, cacheElevation]
  rw [hpair]
  rcases hscan : scanProviders ps with ⟨res, n⟩
  rcases res with _ | r <;> rfl

/-- C6 counterexample: an entry created at time 0 with TTL 10 is still
served at time 10, when `now - createdAt` equals the TTL and is not
strictly less than it. -/
theorem getCachedElevation_serves_at_exact_ttl :
    (getCachedElevation [((0, 0), ⟨⟨some 5, "USGS", "high"⟩, 0, 10⟩)] 10 (0, 0)).1
        = some ⟨some 5, "USGS", "high"⟩ ∧
      ¬((10 : ℤ) - 0 < 10) := by
  constructor
  · rfl
  · decide

/-- C6 (amended): a cached elevation reading is returned exactly while
`now - createdAt ≤ ttl`: a fresh entry is served while its age is at most
its TTL, anything served comes from an entry whose age is at most its
TTL, an entry whose TTL has strictly elapsed is never served and is
removed at read time, and a second resolution of the same rounded
coordinate within the TTL of a just-populated entry performs zero
provider calls and returns the cached reading. -/
theorem getCachedElevation_ttl_semantics :
    (∀ (c : ElevationCache) (k : ℤ × ℤ) (e : CacheEntry) (now : ℤ),
        cacheFind c k = some e → now - e.timestamp ≤ e.expiry →
        getCachedElevation c now k = (some e.data, c)) ∧
      (∀ (c : ElevationCache) (k : ℤ × ℤ) (now : ℤ) (r : ElevationReading),
        (getCachedElevation c now k).1 = some r →
        ∃ e, cacheFind c k = some e ∧ e.data = r ∧ now - e.timestamp ≤ e.expiry) ∧
      (∀ (c : ElevationCache) (k : ℤ × ℤ) (e : CacheEntry) (now : ℤ),
        cacheFind c k = some e → e.expiry < now - e.timestamp →
        getCachedElevation c now k = (none, cacheErase c k)) ∧
      (∀ (c : ElevationCache) (now₁ : ℤ) (lat lng : ℚ) (ps : List ProviderResult)
          (dur : ℤ) (rand : ℚ) (now₂ dur₂ : ℤ) (ps₂ : List ProviderResult) (rand₂ : ℚ),
        (getCachedElevation c now₁ (cacheKey lat lng)).1 = none →
        now₂ - now₁ ≤ dur →
        getElevationData (getElevationData c now₁ lat lng ps dur rand).2.1 now₂ lat lng
            ps₂ dur₂ rand₂
          = ((getElevationData c now₁ lat lng ps dur rand).1,
             (getElevationData c now₁ lat lng ps dur rand).2.1, 0)) := by
  refine ⟨?_, ?_, ?_, ?_⟩
  · intro c k e now hfind h
    simp only [getCachedElevation, hfind]
    rw [if_neg (by omega)]
  · intro c k now r
    rcases hfind : cacheFind c k with _ | e
    · simp [getCachedElevation, hfind]
    · simp only [getCachedElevation, hfind]
      split_ifs with httl
      · simp
      · simp only [Option.some.injEq]
        intro h
        exact ⟨e, rfl, h, by omega⟩
  · intro c k e now hfind h
    simp only [getCachedElevation, hfind]
    rw [if_pos (by omega)]
  · intro c now₁ lat lng ps dur rand now₂ dur₂ ps₂ rand₂ hmiss httl
    have hcache := getElevationData_miss_cache c now₁ lat lng ps dur rand hmiss
    apply getElevationData_hit
    rw [hcache]
    simp only [getCachedElevation, cacheFind_cacheSet]
    rw [if_neg (by omega)]

/-- C6 witness: concrete instances of the four parts — a hit at age 3 of
a TTL-10 entry, its characterization, expiry at age 11, and a second
resolution at time 5 of a coordinate first resolved at time 0 with TTL
3600000 that makes zero provider calls. -/
theorem getCachedElevation_ttl_semantics_witness :
    getCachedElevation [((0, 0), ⟨⟨some 5, "USGS", "high"⟩, 0, 10⟩)] 3 (0, 0)
        = (some ⟨some 5, "USGS", "high"⟩, [((0, 0), ⟨⟨some 5, "USGS", "high"⟩, 0, 10⟩)]) ∧
      (∃ e, cacheFind [((0, 0), ⟨⟨some 5, "USGS", "high"⟩, 0, 10⟩)] (0, 0) = some e ∧
        e.data = ⟨some 5, "USGS", "high"⟩ ∧ (3 : ℤ) - e.timestamp ≤ e.expiry) ∧
      getCachedElevation [((0, 0), ⟨⟨some 5, "USGS", "high"⟩, 0, 10⟩)] 11 (0, 0)
        = (none, cacheErase [((0, 0), ⟨⟨some 5, "USGS", "high"⟩, 0, 10⟩)] (0, 0)) ∧
      getElevationData (getElevationData [] 0 0 0 [] 3600000 0).2.1 5 0 0
          [ProviderResult.err] 0 0
        = ((getElevationData [] 0 0 0 [] 3600000 0).1,
           (getElevationData [] 0 0 0 [] 3600000 0).2.1, 0) := by
  refine ⟨?_, ?_, ?_, ?_⟩
  · exact getCachedElevation_ttl_semantics.1 [((0, 0), ⟨⟨some 5, "USGS", "high"⟩, 0, 10⟩)]
      (0, 0) ⟨⟨some 5, "USGS", "high"⟩, 0, 10⟩ 3 rfl (by decide)
  · exact getCachedElevation_ttl_semantics.2.1 [((0, 0), ⟨⟨some 5, "USGS", "high"⟩, 0, 10⟩)]
      (0, 0) 3 ⟨some 5, "USGS", "high"⟩ rfl
  · exact getCachedElevation_ttl_semantics.2.2.1 [((0, 0), ⟨⟨some 5, "USGS", "high"⟩, 0, 10⟩)]
      (0, 0) ⟨⟨some 5, "USGS", "high"⟩, 0, 10⟩ 11 rfl (by decide)
  · exact getCachedElevation_ttl_semantics.2.2.2 [] 0 0 0 [] 3600000 0 5 0
      [ProviderResult.err] 0 rfl (by decide)

/-- C7 (code bug evidence): `config.js` sets
`CONFIG.ELEVATION.API_TIMEOUT = 10000` and `CONFIG.ELEVATION.MAX_RETRIES
= 2`, yet a USGS provider call behaves identically under every
configuration, always performs exactly one fetch attempt, and on a
transient first-attempt failure — where a retry permitted by the
configured budget would succeed — reports failure without retrying. -/
theorem getUSGSElevation_no_timeout_no_retry :
    CONFIG_ELEVATION.apiTimeout = 10000 ∧ CONFIG_ELEVATION.maxRetries = 2 ∧
      (∀ cfg cfg₂ f, getUSGSElevation cfg f = getUSGSElevation cfg₂ f) ∧
      (∀ cfg f, (getUSGSElevation cfg f).2 = 1) ∧
      (getUSGSElevation CONFIG_ELEVATION
          (fun n => if n = 0 then FetchOutcome.networkErr else FetchOutcome.okBody true 100)).1
        = Except.error "USGS API request failed" := by
  refine ⟨rfl, rfl, fun _ _ _ => rfl, ?_, rfl⟩
  intro cfg f
  simp only [getUSGSElevation]
  rcases f 0 with _ | _ | ⟨b, v⟩
  · rfl
  · rfl
  · cases b <;> rfl

/-- C9: the risk classification is deterministic and pure: run in any two
ambient worlds (random stream, clock), identical (elevation, rainfall,
nearWater) inputs produce identical score and level. -/
theorem calculateFloodRisk_deterministic (w₁ w₂ : World) (e r : ℚ) (n : Bool) :
    calculateFloodRiskInWorld w₁ e r n = calculateFloodRiskInWorld w₂ e r n := rfl

/-- C10: the total score always lies in [0, 200] and the level is one of
the four strings low/medium/high/very-high. -/
theorem calculateFloodRisk_score_bounds (e r : ℚ) (n : Bool) :
    0 ≤ (calculateFloodRisk e r n).score ∧ (calculateFloodRisk e r n).score ≤ 200 ∧
      ((calculateFloodRisk e r n).level = "low" ∨ (calculateFloodRisk e r n).level = "medium" ∨
        (calculateFloodRisk e r n).level = "high" ∨ (calculateFloodRisk e r n).level = "very-high") := by
  have he : 0 ≤ elevationFactor e ∧ elevationFactor e ≤ 100 := by
    unfold elevationFactor; split_ifs <;> norm_num
  have hr : 0 ≤ rainfallFactor r ∧ rainfallFactor r ≤ 100 := by
    unfold rainfallFactor; split_ifs <;> norm_num
  obtain ⟨he0, he1⟩ := he
  obtain ⟨hr0, hr1⟩ := hr
  refine ⟨?_, ?_, ?_⟩
  · show 0 ≤ totalRiskScore e r n
    cases n
    · rw [totalRiskScore_false]; linarith
    · rw [totalRiskScore_true]; linarith
  · show totalRiskScore e r n ≤ 200
    cases n
    · rw [totalRiskScore_false]; linarith
    · rw [totalRiskScore_true]; linarith
  · show riskLevelOf (totalRiskScore e r n) = "low" ∨ riskLevelOf (totalRiskScore e r n) = "medium" ∨
      riskLevelOf (totalRiskScore e r n) = "high" ∨ riskLevelOf (totalRiskScore e r n) = "very-high"
    unfold riskLevelOf
    split_ifs <;> simp

/-- C8 counterexample: at elevation 25 m, rainfall 45 mm, near water, the
score computed by the code is exactly 160/3 (≈53.33), not the claimed
53.4. -/
theorem calculateFloodRisk_houston_score_not_534 :
    (calculateFloodRisk 25 45 true).score = 160 / 3 ∧ (160 / 3 : ℚ) ≠ 53.4 := by
  constructor
  · show totalRiskScore 25 45 true = 160 / 3
    rw [totalRiskScore_true]
    norm_num [elevationFactor, rainfallFactor]
  · norm_num

/-- Evaluating the per-period estimate on the failing input. -/
theorem periodRainfall_heavy : periodRainfall "Heavy rain expected" = 15 := by decide

/-- C2 (code bug evidence): for a forecast whose single period reads
"Heavy rain expected", the per-period estimates sum to 15 mm, but the code
returns 1500 — the sum scaled by ×100 (`totalRainfall *= 100`) — so the
returned value does not equal the unscaled sum; in general the code
returns the unscaled sum multiplied by 100. -/
theorem getRainfallData_hundredfold_bug :
    getRainfallData ["Heavy rain expected"] = 1500 ∧
      specRainfallSum ["Heavy rain expected"] = 15 ∧
      getRainfallData ["Heavy rain expected"] ≠ specRainfallSum ["Heavy rain expected"] ∧
      ∀ ps, getRainfallData ps = roundTenth (100 * specRainfallSum ps) := by
  have hsum : specRainfallSum ["Heavy rain expected"] = 15 := by
    simp [specRainfallSum, periodRainfall_heavy]
  have hdata : getRainfallData ["Heavy rain expected"] = 1500 := by
    simp only [getRainfallData, List.take, List.map, List.sum_cons, List.sum_nil,
      periodRainfall_heavy, roundTenth]
    norm_num [round_eq]
  refine ⟨hdata, hsum, ?_, ?_⟩
  · rw [hdata, hsum]; norm_num
  · intro ps
    simp [getRainfallData, specRainfallSum, mul_comm]

/-- A fully rejected probe sequence is traversed to its end with no
acceptance. -/
theorem searchGo_all_none (oracle : ℕ → String → ProbeOutcome) (l : List (ℕ × String))
    (h : ∀ q ∈ l, probeAccept (oracle q.1 q.2) = none) :
    searchGo oracle l = (none, l.length) := by
  induction l with
  | nil => rfl
  | cons q rest ih =>
    rcases q with ⟨d, dir⟩
    have hq := h (d, dir) (List.mem_cons_self _ _)
    have hrest := ih (fun p hp => h p (List.mem_cons_of_mem _ hp))
    simp [searchGo, hq, hrest]

/-- Rejected probes at the front of the sequence are skipped, each
counted once. -/
theorem searchGo_append (oracle : ℕ → String → ProbeOutcome)
    (pre rest : List (ℕ × String))
    (h : ∀ q ∈ pre, probeAccept (oracle q.1 q.2) = none) :
    searchGo oracle (pre ++ rest)
      = ((searchGo oracle rest).1, pre.length + (searchGo oracle rest).2) := by
  induction pre with
  | nil => simp
  | cons q pre' ih =>
    rcases q with ⟨d, dir⟩
    have hq := h (d, dir) (List.mem_cons_self _ _)
    have hpre' := ih (fun p hp => h p (List.mem_cons_of_mem _ hp))
    simp [searchGo, hq, hpre']
    omega

/-- C3: the probe grid is exactly the rings 20, 40, …, 160 in increasing
order with, inside each ring, the directions in the fixed order N, S, E,
W, NE, NW, SE, SW; the search returns the first probe in this order whose
level is low/medium and whose name is not a coordinate string — having
evaluated exactly the probes up to it, so no later direction or ring is
probed — and skipped (errored or coordinate-named) probes merely advance
it; when all 64 probes are rejected it reports absence. -/
theorem searchForSaferCity_first_qualifying :
    probeList =
        [(20, "North"), (20, "South"), (20, "East"), (20, "West"), (20, "Northeast"),
         (20, "Northwest"), (20, "Southeast"), (20, "Southwest"),
         (40, "North"), (40, "South"), (40, "East"), (40, "West"), (40, "Northeast"),
         (40, "Northwest"), (40, "Southeast"), (40, "Southwest"),
         (60, "North"), (60, "South"), (60, "East"), (60, "West"), (60, "Northeast"),
         (60, "Northwest"), (60, "Southeast"), (60, "Southwest"),
         (80, "North"), (80, "South"), (80, "East"), (80, "West"), (80, "Northeast"),
         (80, "Northwest"), (80, "Southeast"), (80, "Southwest"),
         (100, "North"), (100, "South"), (100, "East"), (100, "West"), (100, "Northeast"),
         (100, "Northwest"), (100, "Southeast"), (100, "Southwest"),
         (120, "North"), (120, "South"), (120, "East"), (120, "West"), (120, "Northeast"),
         (120, "Northwest"), (120, "Southeast"), (120, "Southwest"),
         (140, "North"), (140, "South"), (140, "East"), (140, "West"), (140, "Northeast"),
         (140, "Northwest"), (140, "Southeast"), (140, "Southwest"),
         (160, "North"), (160, "South"), (160, "East"), (160, "West"), (160, "Northeast"),
         (160, "Northwest"), (160, "Southeast"), (160, "Southwest")] ∧
      (∀ (oracle : ℕ → String → ProbeOutcome) (pre : List (ℕ × String)) (p : ℕ × String)
          (post : List (ℕ × String)) (lvl city : String),
        probeList = pre ++ p :: post →
        (∀ q ∈ pre, probeAccept (oracle q.1 q.2) = none) →
        probeAccept (oracle p.1 p.2) = some (lvl, city) →
        searchForSaferCity oracle = (some ⟨city, p.1, p.2, lvl⟩, pre.length + 1)) ∧
      (∀ oracle : ℕ → String → ProbeOutcome,
        (∀ q ∈ probeList, probeAccept (oracle q.1 q.2) = none) →
        searchForSaferCity oracle = (none, 64)) := by
  refine ⟨rfl, ?_, ?_⟩
  · intro oracle pre p post lvl city hplist hpre hacc
    rcases p with ⟨d, dir⟩
    unfold searchForSaferCity
    rw [hplist, searchGo_append oracle pre _ hpre]
    simp [searchGo, hacc]
  · intro oracle h
    unfold searchForSaferCity
    rw [searchGo_all_none oracle probeList h]
    rfl

/-- C3 witness: with an oracle that assesses every eastern probe low at
"Springfield" and every other probe high, the search skips the first two
probes (North, South at 20 miles) and accepts the third (East at 20
miles) after exactly 3 probes; with an oracle whose probes all error, the
search reports absence after all 64 probes. -/
theorem searchForSaferCity_first_qualifying_witness :
    searchForSaferCity (fun _ dir =>
        if dir = "East" then ProbeOutcome.assessed "low" "Springfield"
        else ProbeOutcome.assessed "high" "Dallas")
      = (some ⟨"Springfield", 20, "East", "low"⟩, 3) ∧
      searchForSaferCity (fun _ _ => ProbeOutcome.fail) = (none, 64) := by
  constructor
  · exact searchForSaferCity_first_qualifying.2.1
      (fun _ dir => if dir = "East" then ProbeOutcome.assessed "low" "Springfield"
        else ProbeOutcome.assessed "high" "Dallas")
      [(20, "North"), (20, "South")] (20, "East") (probeList.drop 3) "low" "Springfield"
      (by decide) (by decide) (by decide)
  · exact searchForSaferCity_first_qualifying.2.2 (fun _ _ => ProbeOutcome.fail) (by decide)

/-- C8 (amended): elevation 25 m, rainfall 45 mm, near water gives
elevation factor 80/3 (the `<50` bucket, ≈26.67), rainfall factor 80/3
(the `>25` bucket), weighted score 80/3, doubled to exactly 160/3
(≈53.33), and level "high". -/
theorem calculateFloodRisk_houston_scenario :
    elevationFactor 25 = 80 / 3 ∧ rainfallFactor 45 = 80 / 3 ∧
      calculateFloodRisk 25 45 true = ⟨"high", 160 / 3⟩ := by
  have hscore : totalRiskScore 25 45 true = 160 / 3 := by
    rw [totalRiskScore_true]
    norm_num [elevationFactor, rainfallFactor]
  have hlevel : riskLevelOf (160 / 3 : ℚ) = "high" := by
    norm_num [riskLevelOf]
  refine ⟨by norm_num [elevationFactor], by norm_num [rainfallFactor], ?_⟩
  show (⟨riskLevelOf (totalRiskScore 25 45 true), totalRiskScore 25 45 true⟩ : RiskResult) = _
  rw [hscore, hlevel]

end Flood
